import Mathlib

/-!
Shallow embedding of `src/personal/lib/email.py` (email feature extraction).

Strings are modelled by Lean `String` (Python `str` at the code-point level),
byte payloads by `List Nat` (each entry a byte value), Python `dict`s that are
built by insertion as insertion-ordered association lists, Python `float`
statistics as exact rationals, and exceptions as `Except`.

External collaborators (the HTML-to-text reduction built on an HTML parser, the
RFC-5322 address-list parser, the codec registry) are modelled from the spec's
description of their contract, as noted in the relevant doc comments.
-/

set_option maxRecDepth 8000

/-- Characters matched by the source's whitespace regular expression
`RE_WHITESPACE` (Python `\s`, modelled on its ASCII range; the claims only
exercise ASCII whitespace). -/
def isSpaceChar (c : Char) : Bool :=
  c == ' ' || c == '\t' || c == '\n' || c == '\r' || c == '\x0b' || c == '\x0c'

/-- Python `str.split` with a single-character separator, on the character
list: `"".split(sep)` yields one empty segment, adjacent separators yield
empty segments. -/
def splitOnChar (sep : Char) : List Char → List (List Char)
  | [] => [[]]
  | c :: cs =>
    match splitOnChar sep cs with
    | [] => [[]]
    | h :: t => if c == sep then [] :: h :: t else (c :: h) :: t

/-- Python `text.split(sep)` for a one-character separator, on `String`. -/
def pySplit (sep : Char) (s : String) : List String :=
  (splitOnChar sep s.data).map (fun l => String.mk l)

/-- `_count_words` (email.py line 36): `len(text.split(" "))`. -/
def _count_words (text : String) : Nat :=
  (pySplit ' ' text).length

/-- One maximal whitespace run, as rewritten by `RE_SPACES.sub(" ", ...)`:
a run of two or more whitespace characters becomes a single space, a lone
whitespace character is kept as it is. -/
def collapseRun (run : List Char) : List Char :=
  if 2 ≤ run.length then [' '] else run

/-- Left-to-right scan for `_collapse_spaces`: `run` is the reversed pending
whitespace run. -/
def collapseSpacesAux : List Char → List Char → List Char
  | run, [] => collapseRun run.reverse
  | run, c :: cs =>
    if isSpaceChar c then collapseSpacesAux (c :: run) cs
    else collapseRun run.reverse ++ (c :: collapseSpacesAux [] cs)

/-- `_collapse_spaces` (email.py line 32): collapse each run of two or more
whitespace characters into a single space. -/
def _collapse_spaces (spaced_text : String) : String :=
  String.mk (collapseSpacesAux [] spaced_text.data)

/-- One character of the uppercase-ratio scan (email.py lines 115-121):
count as upper when uppercasing the character yields itself (Python
`c.upper() == c`, modelled by `Char.toUpper`, which agrees on ASCII), else as
lower when it is not whitespace, else skip. The accumulator is
`(total_upper, total_lower)`. -/
def stepChar (acc : Nat × Nat) (c : Char) : Nat × Nat :=
  if c.toUpper = c then (acc.1 + 1, acc.2)
  else if isSpaceChar c then acc
  else (acc.1, acc.2 + 1)

/-- The `(total_upper, total_lower)` counters after scanning every character
of every text in `process` (email.py lines 105-121). -/
def countUL (texts : List String) : Nat × Nat :=
  texts.foldl (fun acc s => s.data.foldl stepChar acc) (0, 0)

/-- Python `text.count(ch)` for a single character. -/
def countChar (ch : Char) (s : String) : Nat :=
  (s.data.filter (fun c => c == ch)).length

/-- The state of an `EmailContent` object after `__init__`
(email.py lines 54-66). -/
structure EmailContent where
  html : Option String
  plain : Option String
  plain_stripped : Option String
  content_types : List (String × Nat)
  multipart : Bool
  html_text : Option String
  non_main_count : Nat
deriving DecidableEq

/-- `EmailContent.__init__` (email.py lines 59-66): stores `html` and `plain`
and derives `plain_stripped` and `html_text`. The HTML-to-text reduction
(`html_to_text`, built on the external HTML-parser collaborator) is passed in
as the capability `h2t`. -/
def EmailContent.make (h2t : String → String) (html plain : Option String)
    (content_types : List (String × Nat)) (multipart : Bool)
    (non_main_count : Nat) : EmailContent :=
  { html := html
    plain := plain
    plain_stripped := Option.map _collapse_spaces plain
    content_types := content_types
    multipart := multipart
    html_text := Option.map h2t html
    non_main_count := non_main_count }

/-- `EmailContent.has_both` (email.py lines 68-70). -/
def EmailContent.has_both (ec : EmailContent) : Bool :=
  ec.html.isSome && ec.plain.isSome

/-- `EmailContent.type` (email.py lines 72-79). -/
def EmailContent.type (ec : EmailContent) : String :=
  if ec.has_both then "both"
  else if ec.html.isSome then "html"
  else "plain"

/-- `EmailContent.get_total_length` (email.py lines 81-89). -/
def EmailContent.get_total_length (ec : EmailContent) : Nat :=
  (match ec.html with | some h => h.length | none => 0) +
  (match ec.plain with | some p => p.length | none => 0)

/-- `EmailContent.get_word_count` (email.py lines 91-102): `html_text` is
already space-collapsed, `plain` is collapsed before counting. -/
def EmailContent.get_word_count (ec : EmailContent) : Nat :=
  (match ec.html_text with | some t => _count_words t | none => 0) +
  (match ec.plain with | some p => _count_words (_collapse_spaces p) | none => 0)

/-- The `process` list of texts scanned by `get_uppercase_ratio`
(email.py lines 108-113): `html_text` when present, then `plain` when
present (the raw, non-collapsed plain text). -/
def EmailContent.textsToProcess (ec : EmailContent) : List String :=
  (match ec.html_text with | some t => [t] | none => []) ++
  (match ec.plain with | some p => [p] | none => [])

/-- `EmailContent.get_uppercase_ratio` (email.py lines 104-125):
`total_upper / max(1, total_upper + total_lower)`, as the exact rational
`mkRat total_upper divisor` (equal to the cast division by
`Rat.mkRat_eq_div`; `mkRat` keeps the definition kernel-computable). -/
def EmailContent.get_uppercase_ratio (ec : EmailContent) : ℚ :=
  mkRat ((countUL (EmailContent.textsToProcess ec)).1 : Int)
    (max 1 ((countUL (EmailContent.textsToProcess ec)).1 +
        (countUL (EmailContent.textsToProcess ec)).2))

/-- `EmailContent.get_explamation_count` (email.py lines 127-135), keeping the
source's spelling. -/
def EmailContent.get_explamation_count (ec : EmailContent) : Nat :=
  (match ec.html_text with | some t => countChar '!' t | none => 0) +
  (match ec.plain with | some p => countChar '!' p | none => 0)

/-! Decoding model. The byte-decoding machinery (`bytes.decode`, the codec
registry) is an external capability of the standard library; it is modelled
here with the behaviour the spec relies on: looking up an unknown charset
label fails (LookupError), a known text codec with replacement-on-error
always produces a string, and Latin-1 maps every byte. -/

/-- Python `str.lower`, modelled on the ASCII range through `Char.toLower`
(charset labels and content types in scope are ASCII). -/
def toLowerStr (s : String) : String :=
  String.mk (s.data.map Char.toLower)

/-- Decoding failure: the charset label is not in the codec registry
(Python `LookupError`; with `errors="replace"` a known text codec never
raises `UnicodeDecodeError`). -/
inductive DecodeError where
  | lookupError
deriving DecidableEq

/-- U+FFFD, substituted by the replacement error policy. -/
def replacementChar : Char := Char.ofNat 0xFFFD

/-- Latin-1 decoding: every byte maps to the code point of the same value,
so it is total. -/
def decodeLatin1 (payload : List Nat) : String :=
  String.mk (payload.map (fun b => Char.ofNat (b % 256)))

/-- ASCII decoding with replacement-on-error: bytes above 127 become the
replacement character instead of raising. -/
def decodeAsciiReplace (payload : List Nat) : String :=
  String.mk (payload.map (fun b =>
    if b % 256 < 128 then Char.ofNat (b % 256) else replacementChar))

/-- Modelled from the spec: `bytes.decode(charset, errors="replace")` with the
codec registry (the Python codec machinery is outside the repository). Charset
lookup is case-insensitive; an unrecognized label raises a lookup error; a
recognized text codec with the replacement policy always returns a string.
The registry here carries the Latin-1 family and ASCII; every other label is
unrecognized and takes the fallback path. -/
def decodeReplace (charset : String) (payload : List Nat) :
    Except DecodeError String :=
  let c := toLowerStr charset
  if c == "latin-1" || c == "latin1" || c == "iso-8859-1" || c == "l1" then
    Except.ok (decodeLatin1 payload)
  else if c == "ascii" || c == "us-ascii" then
    Except.ok (decodeAsciiReplace payload)
  else
    Except.error DecodeError.lookupError

/-- One MIME part as the parser collaborator exposes it: content type,
raw payload bytes, declared charset (absent when the part declares none). -/
structure MimePart where
  content_type : String
  payload : List Nat
  charset : Option String
deriving DecidableEq

/-- Charset resolution of `_safe_get_content` (email.py lines 213-216):
absent charsets and the placeholder labels `default_charset` /
`unknown-8bit` (case-insensitively) are replaced by `latin-1`. -/
def resolveCharset (charset : Option String) : String :=
  match charset with
  | none => "latin-1"
  | some c =>
      if toLowerStr c == "default_charset" || toLowerStr c == "unknown-8bit" then
        "latin-1"
      else c

/-- `EmailReader._safe_get_content` (email.py lines 211-222) with the
exception layer kept explicit: decode with the resolved charset; on failure
retry with Latin-1 and replacement-on-error, whose own failure (there is
none) would propagate. -/
def _safe_get_contentE (part : MimePart) : Except DecodeError String :=
  match decodeReplace (resolveCharset part.charset) part.payload with
  | Except.ok s => Except.ok s
  | Except.error _ => decodeReplace "latin-1" part.payload

/-- `EmailReader._safe_get_content` (email.py lines 211-222) as the string it
returns: the fallback branch decodes with Latin-1, which is total. -/
def _safe_get_content (part : MimePart) : String :=
  match decodeReplace (resolveCharset part.charset) part.payload with
  | Except.ok s => s
  | Except.error _ => decodeLatin1 part.payload

/-- A parsed message as the email-parser collaborator exposes it to
`EmailReader`: the headers `_convert_one` reads (each absent or a raw string),
the multipart flag, the ordered direct child parts (when multipart), and the
message viewed as a single part (content type, payload, charset — used by the
non-multipart branch of `_get_body`). -/
structure EmailMsg where
  subject : Option String
  from_h : Option String
  to_h : Option String
  reply_to_h : Option String
  cc : Option String
  list_unsub : Option String
  content_type_h : Option String
  date : Option String
  message_id : Option String
  x_mailer : Option String
  user_agent : Option String
  is_multipart : Bool
  parts : List MimePart
  self_part : MimePart
deriving DecidableEq

/-- `CONTENT_TYPE_HTML` (email.py line 14). -/
def CONTENT_TYPE_HTML : String := "text/html"

/-- `CONTENT_TYPE_PLAIN` (email.py line 15). -/
def CONTENT_TYPE_PLAIN : String := "text/plain"

/-- Python `dict` counter increment `types_counter[ct] += 1` with
first-seen-at-the-end insertion order (email.py lines 238-240), on an
insertion-ordered association list with unique keys. -/
def incrCount : List (String × Nat) → String → List (String × Nat)
  | [], k => [(k, 1)]
  | (k', v) :: rest, k =>
      if k' == k then (k', v + 1) :: rest else (k', v) :: incrCount rest k

/-- The loop state of the multipart branch of `_get_body`
(email.py lines 229-251): the content-type counter, the ordered HTML and
plain fragment lists, and the ignored-part count. -/
structure MultipartAcc where
  types_counter : List (String × Nat)
  htmlParts : List String
  plainParts : List String
  non_main : Nat
deriving DecidableEq

/-- One iteration of the part loop of `_get_body` (email.py lines 233-251):
count the content type, then accumulate the decoded payload under HTML or
plain, or count the part as ignored. -/
def stepPart (acc : MultipartAcc) (part : MimePart) : MultipartAcc :=
  let tc := incrCount acc.types_counter part.content_type
  if part.content_type == CONTENT_TYPE_HTML then
    { acc with types_counter := tc,
               htmlParts := acc.htmlParts ++ [_safe_get_content part] }
  else if part.content_type == CONTENT_TYPE_PLAIN then
    { acc with types_counter := tc,
               plainParts := acc.plainParts ++ [_safe_get_content part] }
  else
    { acc with types_counter := tc, non_main := acc.non_main + 1 }

/-- Python `sep.join(l)`. -/
def strIntercalate (sep : String) : List String → String
  | [] => ""
  | [x] => x
  | x :: xs => x ++ sep ++ strIntercalate sep xs

/-- `EmailReader._get_body` (email.py lines 224-288). Multipart: fold the part
loop over the direct children, then newline-join each fragment list (null when
its list is empty). Non-multipart: the message itself is the single part; only
HTML and plain content types produce content, every other type (including a
multipart content type with the flag false) leaves both null; the ignored-part
count is always 0 in this branch. -/
def _get_body (h2t : String → String) (msg : EmailMsg) : EmailContent :=
  if msg.is_multipart then
    let acc := msg.parts.foldl stepPart ⟨[], [], [], 0⟩
    EmailContent.make h2t
      (if acc.htmlParts.isEmpty then none
       else some (strIntercalate "\n" acc.htmlParts))
      (if acc.plainParts.isEmpty then none
       else some (strIntercalate "\n" acc.plainParts))
      acc.types_counter true acc.non_main
  else
    let content_type := toLowerStr msg.self_part.content_type
    EmailContent.make h2t
      (if content_type == CONTENT_TYPE_HTML
       then some (_safe_get_content msg.self_part) else none)
      (if content_type == CONTENT_TYPE_PLAIN
       then some (_safe_get_content msg.self_part) else none)
      [(content_type, 1)] false 0

deriving instance DecidableEq for Except

/-- A message with every header absent, used as the base of the concrete
messages below (each overrides the fields it needs). -/
def baseMsg : EmailMsg where
  subject := none
  from_h := none
  to_h := none
  reply_to_h := none
  cc := none
  list_unsub := none
  content_type_h := none
  date := none
  message_id := none
  x_mailer := none
  user_agent := none
  is_multipart := false
  parts := []
  self_part := ⟨"text/plain", [], none⟩

/-- Strip leading and trailing whitespace from a character list. -/
def trimChars (l : List Char) : List Char :=
  ((l.dropWhile isSpaceChar).reverse.dropWhile isSpaceChar).reverse

/-- One address token, as `(display-name, email-address)`: with an angle
bracket, the name stands before `<` and the address between `<` and `>`;
otherwise the trimmed token is a bare address with an empty name. -/
def parseOneAddress (tok : List Char) : String × String :=
  let t := trimChars tok
  if t.contains '<' then
    (String.mk (trimChars (t.takeWhile (fun c => c != '<'))),
     String.mk (((t.dropWhile (fun c => c != '<')).drop 1).takeWhile
        (fun c => c != '>')))
  else ("", String.mk t)

/-- Modelled from the spec: the RFC-5322 address-list parsing collaborator
(Python `email.utils.getaddresses`, outside the repository), which per the
spec "yields ordered (display-name, email-address) pairs; empty/absent
headers yield an empty list". Comma-separated tokens each yield one pair;
tokens that carry neither a name nor an address are dropped. -/
def getaddresses (header : Option String) : List (String × String) :=
  match header with
  | none => []
  | some s =>
      ((splitOnChar ',' s.data).map parseOneAddress).filter
        (fun p => !(p.1 == "" && p.2 == ""))

/-- The fixed freemail provider suffix list (email.py lines 146-151). -/
def freemailDomains : List String :=
  ["gmail.com", "hotmail.com", "yahoo.com", "msn.com"]

/-- Python `s.endswith(suffix)` (case-sensitive). -/
def endsWithStr (s suffix : String) : Bool :=
  List.isSuffixOf suffix.data s.data

/-- Python `s.endswith(tuple)`: true when some entry is a suffix of `s`. -/
def endsWithAnyOf (s : String) (l : List String) : Bool :=
  l.any (fun d => endsWithStr s d)

/-- The failures `_convert_one` can raise in this model: Python `IndexError`
from an out-of-range list index. -/
inductive ConvError where
  | indexError
deriving DecidableEq

/-- The freemail computation of email.py line 146 applied to the first parsed
From address: `email.split("@")[1].endswith(providers)`. The index `[1]`
raises when the address has no `@`. -/
def from_uses_freemail_calc (email : String) : Except ConvError Bool :=
  match (pySplit '@' email).get? 1 with
  | none => Except.error ConvError.indexError
  | some dom => Except.ok (endsWithAnyOf dom freemailDomains)

/-- One cell of the output record: the Python values stored in `msg_data`
(strings, nullable strings, integers, booleans, and the float ratio as an
exact rational). -/
inductive CellValue where
  | str (s : String)
  | optStr (s : Option String)
  | nat (n : Nat)
  | bool (b : Bool)
  | rat (q : ℚ)
deriving DecidableEq

/-- One output row: the `msg_data` dict of `_convert_one` as an
insertion-ordered association list. -/
def MsgRow : Type := List (String × CellValue)

instance : DecidableEq MsgRow := inferInstanceAs (DecidableEq (List (String × CellValue)))

/-- `json.dumps` on the content-type counter (string keys, integer values,
default separators; the content-type keys in scope need no escaping). -/
def jsonDumps (m : List (String × Nat)) : String :=
  "\x7b" ++
    strIntercalate ", "
      (m.map (fun p => "\"" ++ p.1 ++ "\": " ++ toString p.2)) ++
  "\x7d"

/-- `EmailReader._convert_one` (email.py lines 140-209). Failure points, in
source order: indexing the first parsed From pair (line 146), indexing the
split of the From address on `@` (line 146), and indexing the first parsed
Reply-To pair while the record dict is being built (line 184). Everything
else is total, so the Reply-To index check is placed right after the From
checks without changing behaviour. -/
def _convert_one (h2t : String → String) (msg : EmailMsg) :
    Except ConvError MsgRow :=
  let content := _get_body h2t msg
  match (getaddresses msg.from_h).head? with
  | none => Except.error ConvError.indexError
  | some fpair =>
    match from_uses_freemail_calc fpair.2 with
    | Except.error e => Except.error e
    | Except.ok from_uses_freemail =>
      match (getaddresses msg.reply_to_h).head? with
      | none => Except.error ConvError.indexError
      | some rpair =>
        let to_emails := msg.to_h
        let tnae := getaddresses to_emails
        let to_emails_count := tnae.length
        let to_names :=
          strIntercalate ","
            ((tnae.map (fun e => e.1)).filter (fun n => 0 < n.length))
        let to_emails_only :=
          strIntercalate ","
            ((tnae.map (fun e => e.2)).filter (fun n => 0 < n.length))
        let reply_to := msg.reply_to_h
        let to_is_reply_to := to_emails.isSome && (to_emails == reply_to)
        let list_unsub := msg.list_unsub
        let has_list_unsub := list_unsub.isSome
        let char_count := EmailContent.get_total_length content
        let word_count := EmailContent.get_word_count content
        let shoutiness := EmailContent.get_uppercase_ratio content
        let exclamations := EmailContent.get_explamation_count content
        Except.ok
          [("subject", CellValue.optStr msg.subject),
           ("from_raw", CellValue.optStr msg.from_h),
           ("from_name", CellValue.str fpair.1),
           ("from_email", CellValue.str fpair.2),
           ("from_uses_freemail", CellValue.bool from_uses_freemail),
           ("to_raw", CellValue.optStr to_emails),
           ("to_names", CellValue.str to_names),
           ("to_emails", CellValue.str to_emails_only),
           ("to_emails_count", CellValue.nat to_emails_count),
           ("reply_to_raw", CellValue.optStr reply_to),
           ("reply_to_name", CellValue.str rpair.1),
           ("reply_to_email", CellValue.str rpair.2),
           ("to_is_reply_to", CellValue.bool to_is_reply_to),
           ("cc", CellValue.optStr msg.cc),
           ("list_unsub", CellValue.optStr list_unsub),
           ("has_list_unsub", CellValue.bool has_list_unsub),
           ("content_type_raw", CellValue.optStr msg.content_type_h),
           ("date", CellValue.optStr msg.date),
           ("message_id", CellValue.optStr msg.message_id),
           ("x_mailer", CellValue.optStr msg.x_mailer),
           ("user_agent", CellValue.optStr msg.user_agent),
           ("type", CellValue.str (EmailContent.type content)),
           ("html_body", CellValue.optStr content.html),
           ("html_body_stripped", CellValue.optStr content.html_text),
           ("plain_body", CellValue.optStr content.plain),
           ("plain_body_stripped", CellValue.optStr content.plain_stripped),
           ("content_types", CellValue.str (jsonDumps content.content_types)),
           ("non_main_content", CellValue.nat content.non_main_count),
           ("multipart", CellValue.bool content.multipart),
           ("char_count", CellValue.nat char_count),
           ("word_count", CellValue.nat word_count),
           ("shoutiness", CellValue.rat shoutiness),
           ("exclamations", CellValue.nat exclamations)]

/-- `EmailReader.read` (email.py lines 294-304): convert each already-parsed
message in order, appending each record; the resulting list of rows is the
data of the output table (`pandas.DataFrame` of a list of dicts sharing one
key set: the columns are that key set, the rows keep list order). A failure
on one message aborts the whole batch. -/
def EmailReader.read (h2t : String → String) : List EmailMsg → Except ConvError (List MsgRow)
  | [] => Except.ok []
  | m :: rest =>
    match _convert_one h2t m with
    | Except.error e => Except.error e
    | Except.ok r =>
      match EmailReader.read h2t rest with
      | Except.error e => Except.error e
      | Except.ok rs => Except.ok (r :: rs)

/-- The column names of the output table: the keys of `msg_data`, in
insertion order. -/
def dataFrameColumns : List String :=
  ["subject", "from_raw", "from_name", "from_email", "from_uses_freemail",
   "to_raw", "to_names", "to_emails", "to_emails_count", "reply_to_raw",
   "reply_to_name", "reply_to_email", "to_is_reply_to", "cc", "list_unsub",
   "has_list_unsub", "content_type_raw", "date", "message_id", "x_mailer",
   "user_agent", "type", "html_body", "html_body_stripped", "plain_body",
   "plain_body_stripped", "content_types", "non_main_content", "multipart",
   "char_count", "word_count", "shoutiness", "exclamations"]

/-- The bytes of an ASCII/Latin-1 string, as a payload. -/
def strBytes (s : String) : List Nat :=
  s.data.map Char.toNat

/-- Scenario A of the spec: a single-part plain-text message whose body text
is `"HELLO world!!"` (no declared charset, so the Latin-1 substitution
decodes the payload unchanged). -/
def msgA : EmailMsg :=
  { baseMsg with
      is_multipart := false
      self_part := ⟨"text/plain", strBytes "HELLO world!!", none⟩ }

/-- A single-part plain-text message whose body is one space: its combined
content text is whitespace-only and non-empty. -/
def msgWS : EmailMsg :=
  { baseMsg with
      is_multipart := false
      self_part := ⟨"text/plain", strBytes " ", none⟩ }

/-- Scenario B of the spec: a multipart message with one `text/html` part
`"<p>Hi</p>"` and one `text/plain` part `"Hi"`. -/
def msgB : EmailMsg :=
  { baseMsg with
      is_multipart := true
      parts := [⟨"text/html", strBytes "<p>Hi</p>", none⟩,
                ⟨"text/plain", strBytes "Hi", none⟩]
      self_part := ⟨"multipart/alternative", [], none⟩ }

/-- Scenario C of the spec: a multipart message with one `application/pdf`
part and no text parts. -/
def msgC : EmailMsg :=
  { baseMsg with
      is_multipart := true
      parts := [⟨"application/pdf", strBytes "%PDF", none⟩]
      self_part := ⟨"multipart/mixed", [], none⟩ }

/-- A well-formed single-part message (From resolves to an address with one
`@`, Reply-To present), first message of the scenario-D batch. -/
def msgD1 : EmailMsg :=
  { baseMsg with
      subject := some "hello"
      from_h := some "Alice <alice@gmail.com>"
      to_h := some "bob@example.org"
      reply_to_h := some "alice@gmail.com"
      is_multipart := false
      self_part := ⟨"text/plain", strBytes "Hi Bob", none⟩ }

/-- Second message of the scenario-D batch. -/
def msgD2 : EmailMsg :=
  { baseMsg with
      subject := some "re: hello"
      from_h := some "bob@example.org"
      to_h := some "alice@gmail.com"
      reply_to_h := some "bob@example.org"
      is_multipart := false
      self_part := ⟨"text/html", strBytes "<b>Hi</b>", none⟩ }

/-- A message whose From address contains two `@` signs. -/
def msgTwoAt : EmailMsg :=
  { baseMsg with
      from_h := some "a@gmail.com@evil.org"
      reply_to_h := some "r@y.com"
      is_multipart := false
      self_part := ⟨"text/plain", strBytes "x", none⟩ }

/-- Looking a field up in a row by column name. -/
def rowLookup (row : MsgRow) (key : String) : Option CellValue :=
  match row.find? (fun p => p.1 == key) with
  | some p => some p.2
  | none => none

/-- The row list of a successful batch read (empty on failure); used to name
concrete outputs in closed statements. -/
def readRows (h2t : String → String) (msgs : List EmailMsg) : List MsgRow :=
  match EmailReader.read h2t msgs with
  | Except.ok rows => rows
  | Except.error _ => []

/-- The sum of the occurrence counts of a content-type counter. -/
def sumValues (m : List (String × Nat)) : Nat :=
  (m.map (fun p => p.2)).sum

/-- The parts the multipart loop accumulates as HTML
(email.py line 243). -/
def isHtmlPart (p : MimePart) : Bool :=
  p.content_type == CONTENT_TYPE_HTML

/-- The parts the multipart loop accumulates as plain text: the `elif` of
email.py line 246, reached only when the HTML test failed. -/
def isPlainPart (p : MimePart) : Bool :=
  !(p.content_type == CONTENT_TYPE_HTML) && (p.content_type == CONTENT_TYPE_PLAIN)

/-- The parts the multipart loop ignores, counting them in `non_main_types`
(email.py lines 249-251). -/
def isIgnoredPart (p : MimePart) : Bool :=
  !(p.content_type == CONTENT_TYPE_HTML) && !(p.content_type == CONTENT_TYPE_PLAIN)

/-- The domain as the claim words it: the substring of the email address
after the first `@` (absent when no `@` occurs). This definition follows the
claim's words, to be compared with the code's `split("@")[1]` computation. -/
def domainAfterFirstAt (email : String) : Option String :=
  match pySplit '@' email with
  | [] => none
  | [_] => none
  | _ :: d :: rest => some (strIntercalate "@" (d :: rest))

/-! Verification. -/

/-- Whitespace characters satisfy the source's upper test: uppercasing them
yields themselves. -/
lemma isSpaceChar_toUpper {c : Char} (h : isSpaceChar c = true) :
    c.toUpper = c := by
  simp only [isSpaceChar, Bool.or_eq_true, beq_iff_eq] at h
  rcases h with ((((h | h) | h) | h) | h) | h <;> subst h <;> decide

/-- Scanning a whitespace-only character list counts every character as
upper and none as lower. -/
lemma foldl_stepChar_ws (l : List Char) (h : ∀ c ∈ l, isSpaceChar c = true)
    (a b : Nat) : l.foldl stepChar (a, b) = (a + l.length, b) := by
  induction l generalizing a b with
  | nil => simp
  | cons c cs ih =>
    have hu : c.toUpper = c := isSpaceChar_toUpper (h c (by simp))
    have hstep : stepChar (a, b) c = (a + 1, b) := by simp [stepChar, hu]
    rw [List.foldl_cons, hstep, ih (fun x hx => h x (by simp [hx])) (a + 1) b]
    simp only [List.length_cons, Prod.mk.injEq]
    exact ⟨by omega, trivial⟩

/-- The text-list scan on whitespace-only texts, with a general starting
accumulator. -/
lemma foldl_texts_ws (texts : List String)
    (h : ∀ s ∈ texts, ∀ c ∈ s.data, isSpaceChar c = true) (a b : Nat) :
    texts.foldl (fun acc s => s.data.foldl stepChar acc) (a, b) =
      (a + (texts.map String.length).sum, b) := by
  induction texts generalizing a b with
  | nil => simp
  | cons s ss ih =>
    rw [List.foldl_cons, foldl_stepChar_ws s.data (h s (by simp)) a b,
      ih (fun t ht => h t (by simp [ht])) (a + s.data.length) b]
    simp only [List.map_cons, List.sum_cons, Prod.mk.injEq, String.length]
    exact ⟨by omega, trivial⟩

/-- The upper/lower counters on whitespace-only texts: everything is upper. -/
lemma countUL_ws (texts : List String)
    (h : ∀ s ∈ texts, ∀ c ∈ s.data, isSpaceChar c = true) :
    countUL texts = ((texts.map String.length).sum, 0) := by
  simpa [countUL] using foldl_texts_ws texts h 0 0

/-- C8: for every content bundle, the uppercase ratio (shoutiness) lies in
the closed interval from 0 to 1; the divisor max(1, upper+lower) keeps the
denominator positive. -/
theorem C8_ratio_bounds (ec : EmailContent) :
    0 ≤ EmailContent.get_uppercase_ratio ec ∧
      EmailContent.get_uppercase_ratio ec ≤ 1 := by
  unfold EmailContent.get_uppercase_ratio
  set u := (countUL (EmailContent.textsToProcess ec)).1 with hu
  set l := (countUL (EmailContent.textsToProcess ec)).2 with hl
  rw [Rat.mkRat_eq_div]
  have hd : (0 : ℚ) < ((max 1 (u + l) : ℕ) : ℚ) := by
    exact_mod_cast Nat.lt_of_lt_of_le Nat.one_pos (Nat.le_max_left 1 (u + l))
  constructor
  · positivity
  · rw [div_le_one hd]
    exact_mod_cast Nat.le_trans (Nat.le_add_right u l) (Nat.le_max_right 1 (u + l))

/-- C3: safe decoding never raises: for every part payload and declared
charset label (absent, placeholder, or bogus), the two-tier decode returns a
string — the Latin-1 retry of the fallback branch always succeeds. -/
theorem C3_safe_decode_total (part : MimePart) :
    _safe_get_contentE part = Except.ok (_safe_get_content part) := by
  unfold _safe_get_contentE _safe_get_content
  cases h : decodeReplace (resolveCharset part.charset) part.payload with
  | ok s => rfl
  | error e => rfl

/-- C10: a content bundle built with both html and plain null has all derived
statistics zero: total length, word count, uppercase ratio and exclamation
count. -/
theorem C10_null_stats_zero (h2t : String → String) (ct : List (String × Nat))
    (mp : Bool) (nm : Nat) :
    EmailContent.get_total_length (EmailContent.make h2t none none ct mp nm) = 0 ∧
    EmailContent.get_word_count (EmailContent.make h2t none none ct mp nm) = 0 ∧
    EmailContent.get_uppercase_ratio (EmailContent.make h2t none none ct mp nm) = 0 ∧
    EmailContent.get_explamation_count (EmailContent.make h2t none none ct mp nm) = 0 := by
  refine ⟨rfl, rfl, ?_, rfl⟩
  have h1 : EmailContent.textsToProcess (EmailContent.make h2t none none ct mp nm)
      = [] := rfl
  unfold EmailContent.get_uppercase_ratio
  rw [h1]
  rw [show countUL [] = (0, 0) from rfl, Rat.mkRat_eq_div]
  norm_num

/-- C1 counterexample: on the scenario-A message the shoutiness is not 0.5
(the space and the two exclamation marks satisfy Python c.upper() == c and
are counted as uppercase, giving 8/13). -/
theorem C1_counterexample :
    ¬ EmailContent.get_uppercase_ratio (_get_body id msgA) = 1 / 2 := by
  have h : EmailContent.get_uppercase_ratio (_get_body id msgA) = mkRat 8 13 := by
    decide
  rw [h, Rat.mkRat_eq_div]
  norm_num

/-- C1 as amended: the scenario-A record has word_count 2 and exclamations 2,
but its shoutiness is 8/13 (5 uppercase letters, the space, and the two
exclamation marks all count as upper; the 5 lowercase letters as lower). -/
theorem C1_scenarioA (h2t : String → String) :
    EmailContent.get_word_count (_get_body h2t msgA) = 2 ∧
    EmailContent.get_explamation_count (_get_body h2t msgA) = 2 ∧
    EmailContent.get_uppercase_ratio (_get_body h2t msgA) = (8 : ℚ) / 13 := by
  have he : _get_body h2t msgA = _get_body id msgA := rfl
  rw [he]
  refine ⟨by decide, by decide, ?_⟩
  have h : EmailContent.get_uppercase_ratio (_get_body id msgA) = mkRat 8 13 := by
    decide
  rw [h, Rat.mkRat_eq_div]
  norm_num

/-- C5: the derived kind is "both" iff html and plain are both non-null,
"html" iff only html is non-null, and "plain" otherwise (exactly when html is
null); and on scenario C - a multipart message with one application/pdf part
and no text parts - both are null, the kind is "plain" and non_main_content
is 1. -/
theorem C5_kind_null_duality :
    (∀ ec : EmailContent,
      ((EmailContent.type ec = "both") ↔
        (ec.html.isSome = true ∧ ec.plain.isSome = true)) ∧
      ((EmailContent.type ec = "html") ↔
        (ec.html.isSome = true ∧ ec.plain = none)) ∧
      ((EmailContent.type ec = "plain") ↔ ec.html = none)) ∧
    ((_get_body id msgC).html = none ∧ (_get_body id msgC).plain = none ∧
      (_get_body id msgC).non_main_count = 1 ∧
      EmailContent.type (_get_body id msgC) = "plain") := by
  constructor
  · intro ec
    rcases hh : ec.html with _ | hs <;> rcases hp : ec.plain with _ | ps <;>
      simp [EmailContent.type, EmailContent.has_both, hh, hp]
  · exact ⟨rfl, rfl, rfl, by decide⟩

/-- C2 counterexample: the bundle extracted from a single-part plain-text
message whose body is one space has whitespace-only combined text, yet its
shoutiness is 1, not 0 (whitespace satisfies Python c.upper() == c and is
counted as uppercase). -/
theorem C2_counterexample :
    EmailContent.get_uppercase_ratio (_get_body id msgWS) = 1 ∧
    ¬ EmailContent.get_uppercase_ratio (_get_body id msgWS) = 0 := by
  constructor <;> decide

/-- C2 as amended: for every content bundle whose combined scanned text
(htmlText plus plain) consists only of whitespace characters, the shoutiness
is 0 when that text is empty and 1 when it is non-empty (every whitespace
character is counted as uppercase). -/
theorem C2_whitespace_shoutiness (ec : EmailContent)
    (h : ∀ s ∈ EmailContent.textsToProcess ec, ∀ c ∈ s.data,
        isSpaceChar c = true) :
    EmailContent.get_uppercase_ratio ec =
      if ((EmailContent.textsToProcess ec).map String.length).sum = 0
      then 0 else 1 := by
  have hc := countUL_ws (EmailContent.textsToProcess ec) h
  unfold EmailContent.get_uppercase_ratio
  rw [hc]
  set n := ((EmailContent.textsToProcess ec).map String.length).sum with hn
  rcases Nat.eq_zero_or_pos n with h0 | hpos
  · rw [h0]
    rw [Rat.mkRat_eq_div]
    norm_num
  · rw [if_neg (by omega)]
    have hmax : max 1 (n + 0) = n := by omega
    rw [Rat.mkRat_eq_div]
    simp only [hmax]
    have hne : ((n : ℤ) : ℚ) ≠ 0 := by
      exact_mod_cast Int.natCast_ne_zero.mpr (by omega)
    push_cast
    push_cast at hne
    exact div_self hne

/-- C2 witness: the amended statement applied to the whitespace-body
message. -/
theorem C2_whitespace_shoutiness_witness :
    EmailContent.get_uppercase_ratio (_get_body id msgWS) =
      if ((EmailContent.textsToProcess (_get_body id msgWS)).map
            String.length).sum = 0
      then 0 else 1 :=
  C2_whitespace_shoutiness (_get_body id msgWS) (by decide)

/-- C9: when the From header is absent, or parses to zero address pairs,
building the feature record fails with an index fault at the access to the
first parsed pair instead of substituting a default. -/
theorem C9_missing_from_fatal (h2t : String → String) (msg : EmailMsg)
    (h : msg.from_h = none ∨ getaddresses msg.from_h = []) :
    _convert_one h2t msg = Except.error ConvError.indexError := by
  have he : getaddresses msg.from_h = [] := by
    rcases h with h | h
    · rw [h]
      rfl
    · exact h
  unfold _convert_one
  rw [he]
  rfl

/-- C9 witness: a message with no From header fails with the index fault. -/
theorem C9_missing_from_fatal_witness :
    (baseMsg.from_h = none ∨ getaddresses baseMsg.from_h = []) ∧
    _convert_one id baseMsg = Except.error ConvError.indexError :=
  ⟨Or.inl rfl, C9_missing_from_fatal id baseMsg (Or.inl rfl)⟩

/-- C7 counterexample: for the From address "a@gmail.com@evil.org" (two `@`
signs) the code takes split("@")[1] = "gmail.com" and reports the freemail
flag true, while the substring after the first `@` is "gmail.com@evil.org",
which ends with none of the providers; the full record built from such a
message carries from_uses_freemail = true. -/
theorem C7_counterexample :
    from_uses_freemail_calc "a@gmail.com@evil.org" = Except.ok true ∧
    domainAfterFirstAt "a@gmail.com@evil.org" = some "gmail.com@evil.org" ∧
    endsWithAnyOf "gmail.com@evil.org" freemailDomains = false ∧
    rowLookup ((readRows id [msgTwoAt]).headD []) "from_uses_freemail" =
      some (CellValue.bool true) := by
  refine ⟨by decide, by decide, by decide, by decide⟩

/-- C7 as amended: the freemail check tests the segment of the email address
between the first and the second `@` (Python split("@")[1]) against the
provider suffix list; this segment is the substring after the first `@`
exactly when the address contains a single `@`. -/
theorem C7_freemail_split_domain (email a d : String) (rest : List String)
    (h : pySplit '@' email = a :: d :: rest) :
    from_uses_freemail_calc email =
      Except.ok (endsWithAnyOf d freemailDomains) ∧
    (rest = [] → domainAfterFirstAt email = some d) := by
  constructor
  · unfold from_uses_freemail_calc
    rw [h]
    rfl
  · intro hr
    subst hr
    unfold domainAfterFirstAt
    rw [h]
    rfl

/-- C7 witness: the amended statement applied to a single-`@` gmail
address. -/
theorem C7_freemail_split_domain_witness :
    from_uses_freemail_calc "a@gmail.com" =
      Except.ok (endsWithAnyOf "gmail.com" freemailDomains) ∧
    domainAfterFirstAt "a@gmail.com" = some "gmail.com" :=
  ⟨(C7_freemail_split_domain "a@gmail.com" "a" "gmail.com" [] (by decide)).1,
   (C7_freemail_split_domain "a@gmail.com" "a" "gmail.com" [] (by decide)).2 rfl⟩

/-- Incrementing a content-type counter raises the sum of its values by
exactly one. -/
lemma sumValues_incrCount (m : List (String × Nat)) (k : String) :
    sumValues (incrCount m k) = sumValues m + 1 := by
  induction m with
  | nil => rfl
  | cons p rest ih =>
    rcases p with ⟨k', v⟩
    by_cases hk : k' == k
    · simp [incrCount, hk, sumValues]
      omega
    · simp [incrCount, hk, sumValues] at ih ⊢
      omega

/-- One loop iteration raises the counter sum by one and sends the part to
exactly one of the three accumulation outcomes. -/
lemma stepPart_effect (acc : MultipartAcc) (p : MimePart) :
    sumValues (stepPart acc p).types_counter =
      sumValues acc.types_counter + 1 ∧
    (stepPart acc p).htmlParts.length =
      acc.htmlParts.length + (if isHtmlPart p then 1 else 0) ∧
    (stepPart acc p).plainParts.length =
      acc.plainParts.length + (if isPlainPart p then 1 else 0) ∧
    (stepPart acc p).non_main =
      acc.non_main + (if isIgnoredPart p then 1 else 0) := by
  by_cases hH : p.content_type == CONTENT_TYPE_HTML
  · simp [stepPart, hH, isHtmlPart, isPlainPart, isIgnoredPart,
      sumValues_incrCount]
  · by_cases hP : p.content_type == CONTENT_TYPE_PLAIN
    · simp [stepPart, hH, hP, isHtmlPart, isPlainPart, isIgnoredPart,
        sumValues_incrCount]
    · simp [stepPart, hH, hP, isHtmlPart, isPlainPart, isIgnoredPart,
        sumValues_incrCount]

/-- The invariant of the multipart part loop: after folding over `ps`, the
counter sum has grown by the number of parts and each accumulator by the
number of parts of its class. -/
lemma foldl_stepPart_counts (ps : List MimePart) (acc : MultipartAcc) :
    sumValues ((ps.foldl stepPart acc).types_counter) =
      sumValues acc.types_counter + ps.length ∧
    ((ps.foldl stepPart acc).htmlParts.length =
      acc.htmlParts.length + (ps.filter isHtmlPart).length) ∧
    ((ps.foldl stepPart acc).plainParts.length =
      acc.plainParts.length + (ps.filter isPlainPart).length) ∧
    ((ps.foldl stepPart acc).non_main =
      acc.non_main + (ps.filter isIgnoredPart).length) := by
  induction ps generalizing acc with
  | nil => simp
  | cons p ps ih =>
    have hs := stepPart_effect acc p
    have ht := ih (stepPart acc p)
    simp only [List.foldl_cons, List.filter_cons, List.length_cons]
    by_cases hH : isHtmlPart p <;> by_cases hP : isPlainPart p <;>
      by_cases hI : isIgnoredPart p <;>
      simp_all [List.length_cons] <;> omega

/-- Every part belongs to exactly one of the three classes. -/
lemma filter_three_partition (ps : List MimePart) :
    (ps.filter isHtmlPart).length + (ps.filter isPlainPart).length +
      (ps.filter isIgnoredPart).length = ps.length := by
  induction ps with
  | nil => rfl
  | cons p ps ih =>
    simp only [List.filter_cons, List.length_cons]
    by_cases hH : p.content_type == CONTENT_TYPE_HTML
    · simp [isHtmlPart, isPlainPart, isIgnoredPart, hH]
      omega
    · by_cases hP : p.content_type == CONTENT_TYPE_PLAIN
      · simp [isHtmlPart, isPlainPart, isIgnoredPart, hH, hP]
        omega
      · simp [isHtmlPart, isPlainPart, isIgnoredPart, hH, hP]
        omega

/-- C4: for every multipart message the content-type counts sum to the number
of direct child parts, the ignored-part count of the bundle equals the number
of parts that are neither HTML nor plain, and the three disjoint outcomes
(HTML accumulation, plain accumulation, ignored) cover every part exactly
once. -/
theorem C4_multipart_completeness (h2t : String → String) (msg : EmailMsg)
    (h : msg.is_multipart = true) :
    sumValues (_get_body h2t msg).content_types = msg.parts.length ∧
    (_get_body h2t msg).non_main_count =
      (msg.parts.filter isIgnoredPart).length ∧
    (msg.parts.filter isHtmlPart).length +
      (msg.parts.filter isPlainPart).length +
      (_get_body h2t msg).non_main_count = msg.parts.length := by
  have hf := foldl_stepPart_counts msg.parts ⟨[], [], [], 0⟩
  have hp := filter_three_partition msg.parts
  unfold _get_body
  rw [h]
  simp only [if_true, EmailContent.make]
  refine ⟨?_, ?_, ?_⟩
  · simpa [sumValues] using hf.1
  · simpa using hf.2.2.2
  · have := hf.2.2.2
    simp only [show (⟨[], [], [], 0⟩ : MultipartAcc).non_main = 0 from rfl,
      Nat.zero_add] at this
    rw [this]
    exact hp

/-- C4 witness: the completeness equations on the scenario-B message (one
HTML part, one plain part). -/
theorem C4_multipart_completeness_witness :
    msgB.is_multipart = true ∧
    (sumValues (_get_body id msgB).content_types = msgB.parts.length ∧
     (_get_body id msgB).non_main_count =
       (msgB.parts.filter isIgnoredPart).length ∧
     (msgB.parts.filter isHtmlPart).length +
       (msgB.parts.filter isPlainPart).length +
       (_get_body id msgB).non_main_count = msgB.parts.length) :=
  ⟨rfl, C4_multipart_completeness id msgB rfl⟩

/-- Unfolding equation of `read` on a non-empty batch. -/
lemma read_cons (h2t : String → String) (m : EmailMsg) (ms : List EmailMsg) :
    EmailReader.read h2t (m :: ms) =
      (match _convert_one h2t m with
       | Except.error e => Except.error e
       | Except.ok r =>
         match EmailReader.read h2t ms with
         | Except.error e => Except.error e
         | Except.ok rs => Except.ok (r :: rs)) := rfl

/-- Every successfully built record carries exactly the fixed column names,
in insertion order. -/
lemma convert_one_keys (h2t : String → String) (msg : EmailMsg) (r : MsgRow)
    (h : _convert_one h2t msg = Except.ok r) :
    r.map (fun p => p.1) = dataFrameColumns := by
  unfold _convert_one at h
  split at h
  · simp at h
  · split at h
    · simp at h
    · split at h
      · simp at h
      · injection h with h2
        subst h2
        rfl

/-- C6 as amended: a successful batch read yields one row per input message,
in input order, every row with the same fixed schema of 33 columns (not 28 as
the claim counts them). -/
theorem C6_batch_shape (h2t : String → String) (msgs : List EmailMsg)
    (rows : List MsgRow) (h : EmailReader.read h2t msgs = Except.ok rows) :
    rows.length = msgs.length ∧
    (∀ r ∈ rows, r.map (fun p => p.1) = dataFrameColumns) ∧
    dataFrameColumns.length = 33 ∧
    (∀ i, ∀ hi : i < msgs.length, ∀ hr : i < rows.length,
      _convert_one h2t (msgs.get ⟨i, hi⟩) = Except.ok (rows.get ⟨i, hr⟩)) := by
  induction msgs generalizing rows with
  | nil =>
    unfold EmailReader.read at h
    injection h with h2
    subst h2
    refine ⟨rfl, by simp, rfl, ?_⟩
    intro i hi
    exact absurd hi (by simp)
  | cons m ms ih =>
    rw [read_cons] at h
    cases hc : _convert_one h2t m with
    | error e =>
      rw [hc] at h
      simp at h
    | ok r =>
      rw [hc] at h
      cases hr2 : EmailReader.read h2t ms with
      | error e =>
        rw [hr2] at h
        simp at h
      | ok rs =>
        rw [hr2] at h
        injection h with h2
        subst h2
        obtain ⟨hlen, hkeys, _, horder⟩ := ih rs hr2
        refine ⟨by simp [hlen], ?_, rfl, ?_⟩
        · intro x hx
          rcases List.mem_cons.mp hx with hx | hx
          · subst hx
            exact convert_one_keys h2t m x hc
          · exact hkeys x hx
        · intro i hi hri
          cases i with
          | zero => exact hc
          | succ n =>
            exact horder n (Nat.lt_of_succ_lt_succ hi)
              (Nat.lt_of_succ_lt_succ hri)

/-- C6 counterexample: the scenario-D batch of two valid messages yields two
rows, but each row has 33 columns, not 28. -/
theorem C6_counterexample :
    (readRows id [msgD1, msgD2]).length = 2 ∧
    (readRows id [msgD1, msgD2]).map (fun r => (r.map (fun p => p.1)).length)
      = [33, 33] ∧
    ¬ (readRows id [msgD1, msgD2]).map (fun r => (r.map (fun p => p.1)).length)
      = [28, 28] := by
  refine ⟨by decide, by decide, by decide⟩

/-- C6 witness: the amended statement applied to the scenario-D batch. -/
theorem C6_batch_shape_witness :
    EmailReader.read id [msgD1, msgD2] = Except.ok (readRows id [msgD1, msgD2]) ∧
    (readRows id [msgD1, msgD2]).length = [msgD1, msgD2].length :=
  ⟨by decide,
   (C6_batch_shape id [msgD1, msgD2] (readRows id [msgD1, msgD2])
      (by decide)).1⟩
